import Mathlib

/-!
Verification of the Lucid news pipeline core.

Shallow embedding of the pipeline orchestration, ranking and classification
core of the `lucid_news` repository, together with proofs of the behavioural
properties stated in its specification.

Embedding conventions:
* timestamps are rational numbers of seconds (`datetime` differences become
  rational subtraction; `.total_seconds() / 3600` becomes division by 3600);
* Python `int(x)` on a real number truncates toward zero, modelled by `pyInt`;
* fallible collaborator calls (database, scraper, clusterer, synthesizer,
  LLM providers) are modelled as `Except`- or `Option`-valued inputs, and the
  `try/except` blocks of the source become matches on those values;
* Python strings are Lean `String`s restricted to the character operations
  actually used (`lower`, `strip`, the `[^a-z]` regex filter).
-/

namespace LucidNews

/-! ## Configuration constants (src/server/config.py) -/

def RELEVANCE_WEIGHT_SOURCES : ℤ := 15

def RELEVANCE_WEIGHT_DIVERSITY : ℤ := 20

def RELEVANCE_WEIGHT_RECENCY : ℤ := 2

def RELEVANCE_BASE_SCORE : ℤ := 50

def LLM_PROVIDER : String := "groq"

def LLM_MAX_RETRIES : ℕ := 3

def LLM_RETRY_DELAY : ℕ := 2

def REFRESH_INTERVAL_HOURS : ℕ := 6

/-- `VALID_CATEGORIES` (src/server/config.py lines 242-251). -/
def VALID_CATEGORIES : List String :=
  ["politics", "economy", "tech", "sports", "culture", "world", "science", "other"]

/-! ## Python primitives -/

/-- Executable floor of a rational (equal to `⌊q⌋`, see `ratFloor_eq_floor`). -/
def ratFloor (q : ℚ) : ℤ := q.num / q.den

/-- Python `int()` applied to a real number: truncation toward zero. -/
def pyInt (q : ℚ) : ℤ := if 0 ≤ q then ratFloor q else -ratFloor (-q)

/-- Python `str.lower()` on the ASCII fragment used by this program. -/
def pyLower (s : String) : String := ⟨s.toList.map Char.toLower⟩

/-- Python `str.strip()`: drop leading and trailing whitespace. -/
def pyStrip (s : String) : String :=
  ⟨((s.toList.dropWhile Char.isWhitespace).reverse.dropWhile Char.isWhitespace).reverse⟩

/-- The regex substitution `re.sub` with pattern `[^a-z]` and empty
replacement: keep only lowercase ASCII letters. -/
def filterAz (s : String) : String :=
  ⟨s.toList.filter fun c => 'a' ≤ c && c ≤ 'z'⟩

/-- Python truthiness of an optional string (`None` and `""` are falsy). -/
def pyTruthy : Option String → Bool
  | none => false
  | some s => s != ""

/-! ## Data model -/

/-- A source article row as consumed by the ranking helpers: only the
`source_lean` key matters; `none` models a row without that key. -/
structure Source where
  source_lean : Option String
deriving DecidableEq, Repr

/-- A story row as consumed by `calculate_relevance_score`: `created_at`
is the parsed creation timestamp in seconds, `none` when the field is
missing or `datetime.fromisoformat` would raise. -/
structure Story where
  created_at : Option ℚ
deriving DecidableEq, Repr

/-- `source.get("source_lean", "center")`. -/
def leanOf (s : Source) : String := s.source_lean.getD "center"

/-- `len(set(s.get("source_lean", "center") for s in sources))`
(src/app.py line 197): the number of distinct raw lean tags. -/
def uniqueLeans (sources : List Source) : ℕ :=
  ((sources.map leanOf).dedup).length

/-- `max(0, min(100, score))` (src/app.py line 208). -/
def clamp01 (x : ℤ) : ℤ := max 0 (min 100 x)

/-- `calculate_relevance_score` (src/app.py lines 183-208).
`now` is the wall-clock time in seconds; the recency penalty is applied
only when the creation timestamp parsed. -/
def calculate_relevance_score (story : Story) (sources : List Source) (now : ℚ) : ℤ :=
  let base := RELEVANCE_BASE_SCORE + (sources.length : ℤ) * RELEVANCE_WEIGHT_SOURCES
    + (uniqueLeans sources : ℤ) * RELEVANCE_WEIGHT_DIVERSITY
  let score :=
    match story.created_at with
    | none => base
    | some created =>
        base - pyInt ((now - created) / 3600 * (RELEVANCE_WEIGHT_RECENCY : ℚ))
  clamp01 score

/-- The four recognized lean tags (keys of `grouped` in
`group_sources_by_lean`, src/app.py line 173). -/
def recognizedLeans : List String := ["left", "center", "right", "international"]

/-- The four buckets produced by `group_sources_by_lean`. -/
structure GroupedSources where
  left : List Source
  center : List Source
  right : List Source
  international : List Source
deriving DecidableEq, Repr

/-- `group_sources_by_lean` (src/app.py lines 171-180): distribute sources
into the four buckets, folding unrecognized tags into `center`. -/
def group_sources_by_lean (sources : List Source) : GroupedSources :=
  sources.foldl
    (fun g s =>
      let lean := leanOf s
      if lean = "left" then { g with left := g.left ++ [s] }
      else if lean = "center" then { g with center := g.center ++ [s] }
      else if lean = "right" then { g with right := g.right ++ [s] }
      else if lean = "international" then { g with international := g.international ++ [s] }
      else { g with center := g.center ++ [s] })
    ⟨[], [], [], []⟩

/-! ## Spec-side scoring definitions

These follow the specification text, for comparison with the embedded code. -/

/-- The spec formula
`BASE + sourceCount*W_SRC + uniqueLeanCount*W_DIV - floor(hoursOld*W_REC)`
clamped into `[0, 100]`, with the default weights, read literally
(with a mathematical floor). -/
def scoreSpecFloor (sourceCount uniqueLeanCount : ℕ) (hoursOld : ℚ) : ℤ :=
  max 0 (min 100 ((50 : ℤ) + (sourceCount : ℤ) * 15 + (uniqueLeanCount : ℤ) * 20
    - ⌊hoursOld * 2⌋))

/-- The spec formula with the floor replaced by Python truncation toward
zero, which is what the code computes. -/
def scoreSpecTrunc (sourceCount uniqueLeanCount : ℕ) (hoursOld : ℚ) : ℤ :=
  max 0 (min 100 ((50 : ℤ) + (sourceCount : ℤ) * 15 + (uniqueLeanCount : ℤ) * 20
    - pyInt (hoursOld * 2)))

/-- The spec reading of `uniqueLeanCount`: distinct lean tags counted after
unrecognized tags are folded to `"center"`. -/
def uniqueLeanCountSpec (sources : List Source) : ℕ :=
  ((sources.map fun s =>
    let l := leanOf s
    if l ∈ recognizedLeans then l else "center").dedup).length

/-- The relevance score as the spec describes it for claim C7: identical to
the code except that `uniqueLeanCount` folds unrecognized tags first. -/
def relevanceScoreFoldedSpec (story : Story) (sources : List Source) (now : ℚ) : ℤ :=
  let base := RELEVANCE_BASE_SCORE + (sources.length : ℤ) * RELEVANCE_WEIGHT_SOURCES
    + (uniqueLeanCountSpec sources : ℤ) * RELEVANCE_WEIGHT_DIVERSITY
  let score :=
    match story.created_at with
    | none => base
    | some created =>
        base - pyInt ((now - created) / 3600 * (RELEVANCE_WEIGHT_RECENCY : ℚ))
  clamp01 score

/-! ## Bridging lemmas for `pyInt` -/

theorem ratFloor_eq_floor (q : ℚ) : ratFloor q = ⌊q⌋ := by
  rw [Rat.floor_def]; rfl

theorem pyInt_of_nonneg {q : ℚ} (h : 0 ≤ q) : pyInt q = ⌊q⌋ := by
  rw [pyInt, if_pos h, ratFloor_eq_floor]

theorem pyInt_of_not_nonneg {q : ℚ} (h : ¬ 0 ≤ q) : pyInt q = ⌈q⌉ := by
  rw [pyInt, if_neg h, ratFloor_eq_floor, Int.floor_neg, neg_neg]

theorem pyInt_mono : Monotone pyInt := by
  intro a b hab
  by_cases ha : 0 ≤ a
  · rw [pyInt_of_nonneg ha, pyInt_of_nonneg (ha.trans hab)]
    exact Int.floor_le_floor hab
  · rw [pyInt_of_not_nonneg ha]
    by_cases hb : 0 ≤ b
    · rw [pyInt_of_nonneg hb]
      calc ⌈a⌉ ≤ 0 := Int.ceil_le.mpr (by exact_mod_cast le_of_not_le ha)
        _ ≤ ⌊b⌋ := Int.le_floor.mpr (by exact_mod_cast hb)
    · rw [pyInt_of_not_nonneg hb]
      exact Int.ceil_le_ceil hab

theorem pyInt_intCast (n : ℤ) : pyInt (n : ℚ) = n := by
  by_cases h : 0 ≤ (n : ℚ)
  · rw [pyInt_of_nonneg h, Int.floor_intCast]
  · rw [pyInt_of_not_nonneg h, Int.ceil_intCast]

/-- Evaluate `pyInt` on a concrete nonnegative rational via its bounds. -/
theorem pyInt_eval_nonneg {q : ℚ} {z : ℤ} (h0 : 0 ≤ q) (h1 : (z : ℚ) ≤ q)
    (h2 : q < z + 1) : pyInt q = z := by
  rw [pyInt_of_nonneg h0]
  exact Int.floor_eq_iff.mpr ⟨h1, h2⟩

/-- Evaluate `pyInt` on a concrete negative rational via its bounds. -/
theorem pyInt_eval_neg {q : ℚ} {z : ℤ} (h0 : ¬ 0 ≤ q) (h1 : (z : ℚ) - 1 < q)
    (h2 : q ≤ z) : pyInt q = z := by
  rw [pyInt_of_not_nonneg h0]
  exact Int.ceil_eq_iff.mpr ⟨h1, h2⟩

/-- Unfold the score into base-plus-penalty form once the creation timestamp
and the penalty value are known. -/
theorem calculate_relevance_score_eval {story : Story} (sources : List Source)
    {now created : ℚ} {p : ℤ} (hc : story.created_at = some created)
    (hp : pyInt ((now - created) / 3600 * (RELEVANCE_WEIGHT_RECENCY : ℚ)) = p) :
    calculate_relevance_score story sources now
      = clamp01 (RELEVANCE_BASE_SCORE + (sources.length : ℤ) * RELEVANCE_WEIGHT_SOURCES
        + (uniqueLeans sources : ℤ) * RELEVANCE_WEIGHT_DIVERSITY - p) := by
  simp only [calculate_relevance_score, hc]
  rw [hp]

/-! ## Ranking (`stories.sort` keyed on the stored relevance score with
`reverse=True`, src/app.py lines 231-232 and 274-278)

Python `list.sort` is a stable sort; with `reverse=True` it orders by
descending key while elements with equal keys keep their original relative
order.  We embed it as `List.mergeSort` with the comparator that places `a`
no later than `b` exactly when the score of `a` is at least that of `b`:
a stable sort
is determined uniquely by its comparator, so this is the sort the code
performs. -/

/-- A story row as consumed by the sort: the stored `relevance_score` plus
an identifier standing for the rest of the row. -/
structure RankedStory where
  id : ℕ
  relevance_score : ℤ
deriving DecidableEq, Repr

/-- The descending-score comparator induced by sorting on the key
`relevance_score` with `reverse=True`. -/
def storyLe (a b : RankedStory) : Bool :=
  b.relevance_score ≤ a.relevance_score

/-- The sort performed on stories before they are rendered or paginated. -/
def rank (stories : List RankedStory) : List RankedStory :=
  stories.mergeSort storyLe

/-! ## Pipeline coordinator (src/app.py lines 35-92)

Collaborator calls are inputs: an `Except`-valued field models a Python call
that either returns a value or raises.  `run_pipeline_job` returns a trace
recording which collaborator calls were started, the updated
`_last_full_scrape`, and whether the outer `except` clause fired. -/

/-- A raised Python exception (the payload is irrelevant to control flow). -/
inductive PyExn where
  | exn
deriving DecidableEq, Repr

/-- `database.get_stats()` result fields used by the web layer. -/
structure DbStats where
  total_articles : ℕ
  total_stories : ℕ
deriving DecidableEq, Repr

/-- Behaviour of the collaborators for one pipeline run. -/
structure PipelineEnv where
  get_articles_added_since : ℕ → Except PyExn ℕ
  scrape_all_sources : Except PyExn Unit
  has_unclustered_articles : Except PyExn Bool
  run_clustering : Except PyExn (List (List ℕ))
  run_synthesis : Except PyExn Unit
  get_stats : Except PyExn DbStats

/-- Which calls a pipeline run started, plus the resulting module state. -/
structure RunTrace where
  recentQueried : Bool
  scrapeCalled : Bool
  lastFullScrape : Option ℚ
  checkedUnclustered : Bool
  clusteringCalled : Bool
  synthesisCalled : Bool
  statsRead : Bool
  errorCaught : Bool
deriving DecidableEq, Repr

/-- `should_scrape = force_scrape or recent_articles < 50` (src/app.py line 52). -/
def should_scrape (force_scrape : Bool) (recent_articles : ℕ) : Bool :=
  force_scrape || recent_articles < 50

/-- Final `database.get_stats()` call of `run_pipeline_job` (src/app.py line 70). -/
def run_pipeline_getStats (env : PipelineEnv) (t : RunTrace) : RunTrace :=
  match env.get_stats with
  | .error _ => { t with statsRead := true, errorCaught := true }
  | .ok _ => { t with statsRead := true }

/-- The unclustered-articles branch of `run_pipeline_job`
(src/app.py lines 62-68), shared verbatim with `run_quick_pipeline`. -/
def run_pipeline_cluster (env : PipelineEnv) (t : RunTrace) : RunTrace :=
  match env.has_unclustered_articles with
  | .error _ => { t with checkedUnclustered := true, errorCaught := true }
  | .ok b =>
    let t2 := { t with checkedUnclustered := true }
    if b then
      match env.run_clustering with
      | .error _ => { t2 with clusteringCalled := true, errorCaught := true }
      | .ok clusters =>
        let t3 := { t2 with clusteringCalled := true }
        if clusters ≠ [] then
          match env.run_synthesis with
          | .error _ => { t3 with synthesisCalled := true, errorCaught := true }
          | .ok _ => run_pipeline_getStats env { t3 with synthesisCalled := true }
        else run_pipeline_getStats env t3
    else run_pipeline_getStats env t2

/-- `run_pipeline_job` (src/app.py lines 35-73).  `now` is the wall-clock
time, `last_full_scrape` the module-level `_last_full_scrape` on entry.
The whole body sits in one `try`; any collaborator exception jumps to the
outer `except`, which logs and returns. -/
def run_pipeline_job (env : PipelineEnv) (force_scrape : Bool) (now : ℚ)
    (last_full_scrape : Option ℚ) : RunTrace :=
  let t0 : RunTrace := ⟨false, false, last_full_scrape, false, false, false, false, false⟩
  match env.get_articles_added_since 2 with
  | .error _ => { t0 with recentQueried := true, errorCaught := true }
  | .ok recent =>
    let t1 := { t0 with recentQueried := true }
    if should_scrape force_scrape recent then
      match env.scrape_all_sources with
      | .error _ => { t1 with scrapeCalled := true, errorCaught := true }
      | .ok _ =>
          run_pipeline_cluster env { t1 with scrapeCalled := true, lastFullScrape := some now }
    else
      run_pipeline_cluster env t1

/-! ## The manual-refresh endpoint (src/app.py lines 326-345) -/

/-- The JSON response of `/api/refresh`: HTTP status code, the `status`
field, and the two counts (absent in the error branch). -/
structure HttpResponse where
  statusCode : ℕ
  status : String
  articles : Option ℕ
  stories : Option ℕ
deriving DecidableEq, Repr

/-- Environment of one `/api/refresh` request: the collaborators seen by the
pipeline run it triggers, plus the outcome of the `database.get_stats()`
call the endpoint itself makes after the run. -/
structure ApiEnv where
  pipeline : PipelineEnv
  get_stats_after : Except PyExn DbStats

/-- `api_refresh` (src/app.py lines 326-345).  `forceParam` is the raw
`force` query parameter (absent modelled by `none`; the Flask call
`request.args.get("force", "false")` supplies the default). -/
def api_refresh (env : ApiEnv) (forceParam : Option String) (now : ℚ)
    (last_full_scrape : Option ℚ) : HttpResponse :=
  let force := pyLower (forceParam.getD "false") == "true"
  let _trace := run_pipeline_job env.pipeline force now last_full_scrape
  match env.get_stats_after with
  | .ok s => ⟨200, "completed", some s.total_articles, some s.total_stories⟩
  | .error _ => ⟨500, "error", none, none⟩

/-! ## Background scheduler (src/app.py lines 94-140)

APScheduler model: a `Sched` is one `BackgroundScheduler` instance holding
identity-keyed jobs.  `add_job` with `replace_existing=True` replaces the
job with the same id; without it, a duplicate id raises
`ConflictingIdError`.  `init_scheduler` always constructs a *fresh*
`BackgroundScheduler`, registers the three jobs and starts it; nothing
shuts down a previously started instance, so the system state is the list
of all started scheduler instances, each of whose jobs owns a live timer. -/

/-- One registered job: its id and trigger kind. -/
structure SchedJob where
  id : String
  trigger : String
deriving DecidableEq, Repr

/-- One `BackgroundScheduler` instance (its job store). -/
structure Sched where
  jobs : List SchedJob
deriving DecidableEq, Repr

/-- `scheduler.add_job(..., id=..., replace_existing=...)`. -/
def add_job (s : Sched) (j : SchedJob) (replace_existing : Bool) : Except PyExn Sched :=
  if s.jobs.any fun j0 => j0.id == j.id then
    if replace_existing then
      .ok ⟨(s.jobs.filter fun j0 => j0.id != j.id) ++ [j]⟩
    else .error .exn
  else .ok ⟨s.jobs ++ [j]⟩

/-- `init_scheduler` (src/app.py lines 94-137): when the opt-in flag is the
string `true` (case-insensitively), build a fresh scheduler, register the
three jobs (`initial_pipeline` without `replace_existing`, the other two
with it) and start it.  `started` is the list of already started scheduler
instances; the old instances stay live. -/
def init_scheduler (enableFlag : String) (started : List Sched) : List Sched :=
  if pyLower enableFlag != "true" then started
  else
    let build : Except PyExn Sched := do
      let s1 ← add_job ⟨[]⟩ ⟨"initial_pipeline", "date"⟩ false
      let s2 ← add_job s1 ⟨"full_pipeline", "interval"⟩ true
      let s3 ← add_job s2 ⟨"quick_pipeline", "interval"⟩ true
      pure s3
    match build with
    | .ok s => started ++ [s]
    | .error _ => started

/-- Number of live timers registered under `id` across all started
scheduler instances. -/
def liveTimers (started : List Sched) (id : String) : ℕ :=
  (started.map fun s => (s.jobs.filter fun j => j.id == id).length).sum

/-! ## Category classifier (src/pipeline/migrate_categories.py)

The three provider adapters all return `body.strip()` on success and `None`
on any transport error, non-success status, parse error or missing
credential, so a provider is modelled as a function from the prompt and the
attempt number to the optional raw response body. -/

/-- The keys of the `providers` dict in `call_llm`
(src/pipeline/migrate_categories.py line 102). -/
def providerKeys : List String := ["ollama", "groq", "together"]

/-- Result of `call_llm` plus its observable effects: the returned value,
how many provider calls were made, and the `time.sleep` durations in
order. -/
structure CallResult where
  result : Option String
  calls : ℕ
  sleeps : List ℕ
deriving DecidableEq, Repr

/-- The retry loop of `call_llm` (src/pipeline/migrate_categories.py lines
107-112): `raw prompt i` is the body the provider HTTP call returns
on attempt `i` (`none` = raised/missing key); the adapter strips it.  A
falsy result (`None` or `""`) sleeps `LLM_RETRY_DELAY` and retries. -/
def call_llm_loop (raw : String → ℕ → Option String) (prompt : String)
    (attempt : ℕ) : ℕ → CallResult
  | 0 => ⟨none, 0, []⟩
  | fuel + 1 =>
    let r := (raw prompt attempt).map pyStrip
    if pyTruthy r then ⟨r, 1, []⟩
    else
      let rest := call_llm_loop raw prompt (attempt + 1) fuel
      ⟨rest.result, rest.calls + 1, LLM_RETRY_DELAY :: rest.sleeps⟩

/-- `call_llm` (src/pipeline/migrate_categories.py lines 101-112). -/
def call_llm (raw : String → ℕ → Option String) (prompt : String) : CallResult :=
  if LLM_PROVIDER ∈ providerKeys then call_llm_loop raw prompt 0 LLM_MAX_RETRIES
  else ⟨none, 0, []⟩

/-- Rendering of `CATEGORY_PROMPT.format(headline=..., consensus=...)`.
The fixed instruction text of the template (src/pipeline/prompts.py lines
91-106) is abbreviated to its first line; no property below depends on the
prompt text, which is threaded through to the provider unchanged. -/
def renderCategoryPrompt (headline consensus : String) : String :=
  "Classify this news story into ONE category based on its headline and summary." ++
    "\n\nHeadline: " ++ headline ++ "\nSummary: " ++ consensus

/-- `classify_story` (src/pipeline/migrate_categories.py lines 115-133). -/
def classify_story (raw : String → ℕ → Option String)
    (headline consensus : String) : String :=
  let prompt := renderCategoryPrompt headline
    (if consensus = "" then "No summary available." else consensus.take 1000)
  match (call_llm raw prompt).result with
  | none => "other"
  | some response =>
    if response = "" then "other"
    else
      let category := filterAz (pyStrip (pyLower response))
      if category ∈ VALID_CATEGORIES then category else "other"

/-! ## Concrete instances used in witnesses and counterexamples -/

/-- Five sources covering three leans (spec scenario `sourceCount=5`,
`uniqueLeanCount=3`). -/
def fiveSources : List Source :=
  [⟨some "left"⟩, ⟨some "left"⟩, ⟨some "center"⟩, ⟨some "right"⟩, ⟨some "right"⟩]

/-- Two sources with distinct unrecognized lean tags. -/
def twoUnrecognized : List Source := [⟨some "foo"⟩, ⟨some "bar"⟩]

/-- Collaborators where only the scraper raises. -/
def envScrapeFails : PipelineEnv :=
  ⟨fun _ => .ok 0, .error .exn, .ok true, .ok [[0]], .ok (), .ok ⟨0, 0⟩⟩

/-- Collaborators that all succeed, with 49 recent articles. -/
def envRecent49 : PipelineEnv :=
  ⟨fun _ => .ok 49, .ok (), .ok false, .ok [], .ok (), .ok ⟨0, 0⟩⟩

/-- Collaborators that all raise. -/
def envAllFail : PipelineEnv :=
  ⟨fun _ => .error .exn, .error .exn, .error .exn, .error .exn, .error .exn, .error .exn⟩

/-- The job store `init_scheduler` builds on a fresh scheduler instance. -/
def freshSchedJobs : Sched :=
  ⟨[⟨"initial_pipeline", "date"⟩, ⟨"full_pipeline", "interval"⟩, ⟨"quick_pipeline", "interval"⟩]⟩

/-! ## Helper lemmas -/

theorem clamp01_mono {x y : ℤ} (h : x ≤ y) : clamp01 x ≤ clamp01 y :=
  max_le_max le_rfl (min_le_min le_rfl h)

theorem clamp01_nonneg (x : ℤ) : 0 ≤ clamp01 x := le_max_left 0 _

theorem clamp01_le_100 (x : ℤ) : clamp01 x ≤ 100 :=
  max_le (by norm_num) (min_le_left 100 x)

theorem dedup_length_le_cons (a : String) (l : List String) :
    l.dedup.length ≤ (a :: l).dedup.length := by
  by_cases h : a ∈ l
  · rw [List.dedup_cons_of_mem h]
  · rw [List.dedup_cons_of_not_mem h]
    exact Nat.le_succ _

theorem uniqueLeans_le_cons (s : Source) (sources : List Source) :
    uniqueLeans sources ≤ uniqueLeans (s :: sources) := by
  unfold uniqueLeans
  rw [List.map_cons]
  exact dedup_length_le_cons _ _

/-- The score of the code, rewritten as the spec formula with truncation
in place of the floor. -/
theorem calculate_eq_scoreSpecTrunc (story : Story) (sources : List Source)
    (now created : ℚ) (hc : story.created_at = some created) :
    calculate_relevance_score story sources now
      = scoreSpecTrunc sources.length (uniqueLeans sources) ((now - created) / 3600) := by
  simp only [calculate_relevance_score, hc, scoreSpecTrunc, clamp01,
    RELEVANCE_BASE_SCORE, RELEVANCE_WEIGHT_SOURCES, RELEVANCE_WEIGHT_DIVERSITY,
    RELEVANCE_WEIGHT_RECENCY]
  norm_num

/-- Evaluation lemma for the C7 spec-side score. -/
theorem relevanceScoreFoldedSpec_eval {story : Story} (sources : List Source)
    {now created : ℚ} {p : ℤ} (hc : story.created_at = some created)
    (hp : pyInt ((now - created) / 3600 * (RELEVANCE_WEIGHT_RECENCY : ℚ)) = p) :
    relevanceScoreFoldedSpec story sources now
      = clamp01 (RELEVANCE_BASE_SCORE + (sources.length : ℤ) * RELEVANCE_WEIGHT_SOURCES
        + (uniqueLeanCountSpec sources : ℤ) * RELEVANCE_WEIGHT_DIVERSITY - p) := by
  simp only [relevanceScoreFoldedSpec, hc]
  rw [hp]

/-! ## Claim theorems -/

/-- C1 (corrected).  The claim reads the recency term as a mathematical
floor; the code applies Python `int()`, which truncates toward zero.  At a
record whose creation timestamp lies 2700 seconds in the future of `now`
(`hoursOld = -3/4`), the code scores 51 while the floor formula gives 52,
so the claim as stated is false. -/
theorem c1_counterexample :
    calculate_relevance_score ⟨some 2700⟩ [] 0
      ≠ scoreSpecFloor ([] : List Source).length (uniqueLeans []) ((0 - 2700) / 3600) := by
  rw [calculate_relevance_score_eval [] rfl
    (pyInt_eval_neg (z := -1) (by norm_num [RELEVANCE_WEIGHT_RECENCY])
      (by norm_num [RELEVANCE_WEIGHT_RECENCY]) (by norm_num [RELEVANCE_WEIGHT_RECENCY]))]
  rw [scoreSpecFloor,
    show ⌊((0 : ℚ) - 2700) / 3600 * 2⌋ = -2 from
      Int.floor_eq_iff.mpr (by constructor <;> norm_num)]
  decide

/-- C1 (amended).  For every record with a parsed creation timestamp and
every item list, the score equals
`BASE + sourceCount*W_SRC + uniqueLeanCount*W_DIV - trunc(hoursOld*W_REC)`
clamped into `[0,100]`, where `trunc` truncates toward zero (this agrees
with the floor of the claim whenever `hoursOld ≥ 0`); the two spec scenarios
hold: `sourceCount=5, uniqueLeanCount=3, hoursOld=1` scores 100, and
`sourceCount=0, uniqueLeanCount=0, hoursOld=100` scores 0. -/
theorem c1_score_formula :
    (∀ (story : Story) (sources : List Source) (now created : ℚ),
      story.created_at = some created →
      calculate_relevance_score story sources now
        = scoreSpecTrunc sources.length (uniqueLeans sources) ((now - created) / 3600)) ∧
    (∀ (sourceCount uniqueLeanCount : ℕ) (hoursOld : ℚ), 0 ≤ hoursOld →
      scoreSpecTrunc sourceCount uniqueLeanCount hoursOld
        = scoreSpecFloor sourceCount uniqueLeanCount hoursOld) ∧
    calculate_relevance_score ⟨some 0⟩ fiveSources 3600 = 100 ∧
    calculate_relevance_score ⟨some 0⟩ [] 360000 = 0 := by
  refine ⟨calculate_eq_scoreSpecTrunc, ?_, ?_, ?_⟩
  · intro sc ul h hh
    rw [scoreSpecTrunc, scoreSpecFloor,
      pyInt_of_nonneg (mul_nonneg hh (by norm_num))]
  · rw [calculate_relevance_score_eval fiveSources rfl
      (pyInt_eval_nonneg (z := 2) (by norm_num [RELEVANCE_WEIGHT_RECENCY])
        (by norm_num [RELEVANCE_WEIGHT_RECENCY]) (by norm_num [RELEVANCE_WEIGHT_RECENCY]))]
    rw [show uniqueLeans fiveSources = 3 from by decide]
    decide
  · rw [calculate_relevance_score_eval [] rfl
      (pyInt_eval_nonneg (z := 200) (by norm_num [RELEVANCE_WEIGHT_RECENCY])
        (by norm_num [RELEVANCE_WEIGHT_RECENCY]) (by norm_num [RELEVANCE_WEIGHT_RECENCY]))]
    decide

/-- Witness for c1_score_formula at a concrete input. -/
theorem c1_score_formula_witness :
    calculate_relevance_score ⟨some 0⟩ [] 3600
      = scoreSpecTrunc ([] : List Source).length (uniqueLeans []) ((3600 - 0) / 3600) :=
  c1_score_formula.1 ⟨some 0⟩ [] 3600 0 rfl

/-- C7 (corrected).  The claim says that in the score `uniqueLeanCount` folds
unrecognized lean tags to `"center"` before counting.  The code counts the
raw distinct tags (src/app.py line 197): on two sources with distinct
unrecognized tags and a 15-hour-old story, the code scores 90 while the
folded reading gives 70. -/
theorem c7_counterexample :
    calculate_relevance_score ⟨some 0⟩ twoUnrecognized 54000
      ≠ relevanceScoreFoldedSpec ⟨some 0⟩ twoUnrecognized 54000 := by
  rw [calculate_relevance_score_eval twoUnrecognized rfl
    (pyInt_eval_nonneg (z := 30) (by norm_num [RELEVANCE_WEIGHT_RECENCY])
      (by norm_num [RELEVANCE_WEIGHT_RECENCY]) (by norm_num [RELEVANCE_WEIGHT_RECENCY]))]
  rw [relevanceScoreFoldedSpec_eval twoUnrecognized rfl
    (pyInt_eval_nonneg (z := 30) (by norm_num [RELEVANCE_WEIGHT_RECENCY])
      (by norm_num [RELEVANCE_WEIGHT_RECENCY]) (by norm_num [RELEVANCE_WEIGHT_RECENCY]))]
  rw [show uniqueLeans twoUnrecognized = 2 from by decide,
    show uniqueLeanCountSpec twoUnrecognized = 1 from by decide]
  decide

/-- C7 (amended).  In the score, `uniqueLeanCount` is the number of
distinct raw lean tags among the items (a missing tag defaults to
`"center"`, but unrecognized tags are not folded), so two items with
distinct unrecognized tags contribute two leans; the folding to
`"center"` happens only in the display grouping `group_sources_by_lean`. -/
theorem c7_unique_leans_raw :
    (∀ (story : Story) (sources : List Source) (now created : ℚ),
      story.created_at = some created →
      calculate_relevance_score story sources now
        = clamp01 (RELEVANCE_BASE_SCORE + (sources.length : ℤ) * RELEVANCE_WEIGHT_SOURCES
          + (uniqueLeans sources : ℤ) * RELEVANCE_WEIGHT_DIVERSITY
          - pyInt ((now - created) / 3600 * (RELEVANCE_WEIGHT_RECENCY : ℚ)))) ∧
    (∀ a b : String, a ≠ b → a ∉ recognizedLeans → b ∉ recognizedLeans →
      uniqueLeans [⟨some a⟩, ⟨some b⟩] = 2 ∧ uniqueLeanCountSpec [⟨some a⟩, ⟨some b⟩] = 1) ∧
    (∀ s : Source, leanOf s ∉ recognizedLeans →
      group_sources_by_lean [s] = ⟨[], [s], [], []⟩) := by
  refine ⟨?_, ?_, ?_⟩
  · intro story sources now created hc
    exact calculate_relevance_score_eval sources hc rfl
  · intro a b hab ha hb
    constructor
    · rw [uniqueLeans, show ([⟨some a⟩, ⟨some b⟩] : List Source).map leanOf = [a, b] from by
        simp [leanOf]]
      rw [List.dedup_cons_of_not_mem (by simp [hab])]
      simp
    · rw [uniqueLeanCountSpec]
      simp only [List.map_cons, List.map_nil, leanOf, Option.getD_some]
      rw [if_neg ha, if_neg hb]
      simp
  · intro s hs
    simp only [recognizedLeans, List.mem_cons, List.not_mem_nil, or_false] at hs
    push_neg at hs
    obtain ⟨h1, h2, h3, h4⟩ := hs
    simp [group_sources_by_lean, h1, h2, h3, h4]

/-- Witness for c7_unique_leans_raw at concrete inputs. -/
theorem c7_unique_leans_raw_witness :
    uniqueLeans [⟨some "foo"⟩, ⟨some "bar"⟩] = 2
      ∧ uniqueLeanCountSpec [⟨some "foo"⟩, ⟨some "bar"⟩] = 1 :=
  c7_unique_leans_raw.2.1 "foo" "bar" (by decide) (by decide) (by decide)

/-- C9 (confirmed).  The score never decreases when an item is added, is
non-decreasing in `sourceCount` and `uniqueLeanCount`, non-increasing in
`hoursOld` (equivalently, it cannot grow as wall-clock time advances), and
always lies in `[0, 100]`. -/
theorem c9_monotone_bounded :
    (∀ (story : Story) (s : Source) (sources : List Source) (now : ℚ),
      calculate_relevance_score story sources now
        ≤ calculate_relevance_score story (s :: sources) now) ∧
    (∀ (sc sc' ul : ℕ) (h : ℚ), sc ≤ sc' →
      scoreSpecTrunc sc ul h ≤ scoreSpecTrunc sc' ul h) ∧
    (∀ (sc ul ul' : ℕ) (h : ℚ), ul ≤ ul' →
      scoreSpecTrunc sc ul h ≤ scoreSpecTrunc sc ul' h) ∧
    (∀ (sc ul : ℕ) (h h' : ℚ), h ≤ h' →
      scoreSpecTrunc sc ul h' ≤ scoreSpecTrunc sc ul h) ∧
    (∀ (story : Story) (sources : List Source) (now now' : ℚ), now ≤ now' →
      calculate_relevance_score story sources now'
        ≤ calculate_relevance_score story sources now) ∧
    (∀ (story : Story) (sources : List Source) (now : ℚ),
      0 ≤ calculate_relevance_score story sources now
        ∧ calculate_relevance_score story sources now ≤ 100) := by
  have hbase : ∀ (n n' u u' : ℕ), n ≤ n' → u ≤ u' →
      RELEVANCE_BASE_SCORE + (n : ℤ) * RELEVANCE_WEIGHT_SOURCES
        + (u : ℤ) * RELEVANCE_WEIGHT_DIVERSITY
      ≤ RELEVANCE_BASE_SCORE + (n' : ℤ) * RELEVANCE_WEIGHT_SOURCES
        + (u' : ℤ) * RELEVANCE_WEIGHT_DIVERSITY := by
    intro n n' u u' hn hu
    simp only [RELEVANCE_BASE_SCORE, RELEVANCE_WEIGHT_SOURCES, RELEVANCE_WEIGHT_DIVERSITY]
    have hn' : (n : ℤ) ≤ (n' : ℤ) := Int.ofNat_le.mpr hn
    have hu' : (u : ℤ) ≤ (u' : ℤ) := Int.ofNat_le.mpr hu
    nlinarith
  refine ⟨?_, ?_, ?_, ?_, ?_, ?_⟩
  · intro story s sources now
    have hb := hbase sources.length (s :: sources).length (uniqueLeans sources)
      (uniqueLeans (s :: sources)) (by simp) (uniqueLeans_le_cons s sources)
    unfold calculate_relevance_score
    cases story.created_at with
    | none => exact clamp01_mono hb
    | some created =>
      dsimp only
      exact clamp01_mono (by omega)
  · intro sc sc' ul h hsc
    unfold scoreSpecTrunc
    apply clamp01_mono
    have : (sc : ℤ) ≤ (sc' : ℤ) := Int.ofNat_le.mpr hsc
    omega
  · intro sc ul ul' h hul
    unfold scoreSpecTrunc
    apply clamp01_mono
    have : (ul : ℤ) ≤ (ul' : ℤ) := Int.ofNat_le.mpr hul
    omega
  · intro sc ul h h' hh
    unfold scoreSpecTrunc
    apply clamp01_mono
    have := pyInt_mono (mul_le_mul_of_nonneg_right hh (by norm_num : (0 : ℚ) ≤ 2))
    omega
  · intro story sources now now' hnow
    unfold calculate_relevance_score
    cases story.created_at with
    | none => exact le_refl _
    | some created =>
      dsimp only
      apply clamp01_mono
      have harg : (now - created) / 3600 * (RELEVANCE_WEIGHT_RECENCY : ℚ)
          ≤ (now' - created) / 3600 * (RELEVANCE_WEIGHT_RECENCY : ℚ) := by
        apply mul_le_mul_of_nonneg_right
        · exact div_le_div_of_nonneg_right (by linarith) (by norm_num)
        · simp only [RELEVANCE_WEIGHT_RECENCY]
          norm_num
      have := pyInt_mono harg
      omega
  · intro story sources now
    exact ⟨clamp01_nonneg _, clamp01_le_100 _⟩

/-- Witness for c9_monotone_bounded at concrete inputs. -/
theorem c9_monotone_bounded_witness :
    calculate_relevance_score ⟨some 0⟩ [] 0
      ≤ calculate_relevance_score ⟨some 0⟩ [⟨some "left"⟩] 0 :=
  c9_monotone_bounded.1 ⟨some 0⟩ ⟨some "left"⟩ [] 0

theorem run_pipeline_cluster_scrapeCalled (env : PipelineEnv) (t : RunTrace) :
    (run_pipeline_cluster env t).scrapeCalled = t.scrapeCalled := by
  unfold run_pipeline_cluster run_pipeline_getStats
  rcases env.has_unclustered_articles with e | b
  · rfl
  · dsimp only
    rcases b with _ | _
    · rcases env.get_stats with e | s <;> rfl
    · rw [if_pos rfl]
      rcases env.run_clustering with e | clusters
      · rfl
      · dsimp only
        by_cases hc : clusters ≠ []
        · rw [if_pos hc]
          rcases env.run_synthesis with e | u
          · rfl
          · rcases env.get_stats with e | s <;> rfl
        · rw [if_neg hc]
          rcases env.get_stats with e | s <;> rfl

/-- C2 (confirmed).  `should_scrape = force_scrape or recent_articles < 50`:
with `force=false` and at least 50 recent articles ingestion is skipped;
with fewer than 50 recent articles or `force=true` it runs, and
`run_pipeline_job` invokes the scraper exactly when `should_scrape` holds. -/
theorem c2_should_ingest_threshold :
    (∀ (recent : ℕ) (force : Bool), force = false → 50 ≤ recent →
      should_scrape force recent = false) ∧
    (∀ (recent : ℕ) (force : Bool), recent < 50 ∨ force = true →
      should_scrape force recent = true) ∧
    (∀ env (force : Bool) (now : ℚ) (last : Option ℚ) (recent : ℕ),
      env.get_articles_added_since 2 = .ok recent →
      (run_pipeline_job env force now last).scrapeCalled = should_scrape force recent) := by
  refine ⟨?_, ?_, ?_⟩
  · intro recent force hf hr
    subst hf
    simp [should_scrape]
    omega
  · intro recent force h
    rcases h with h | h
    · simp [should_scrape, h]
    · subst h
      simp [should_scrape]
  · intro env force now last recent h
    unfold run_pipeline_job
    rw [h]
    dsimp only
    by_cases hs : should_scrape force recent = true
    · rw [if_pos hs, hs]
      rcases env.scrape_all_sources with e | u
      · rfl
      · rw [run_pipeline_cluster_scrapeCalled]
    · rw [if_neg hs, run_pipeline_cluster_scrapeCalled]
      simp at hs
      rw [hs]

/-- Witness for c2_should_ingest_threshold at concrete inputs. -/
theorem c2_should_ingest_threshold_witness :
    should_scrape false 50 = false ∧ should_scrape false 49 = true ∧
    (run_pipeline_job envRecent49 false 0 none).scrapeCalled = should_scrape false 49 :=
  ⟨c2_should_ingest_threshold.1 50 false rfl (by norm_num),
   c2_should_ingest_threshold.2.1 49 false (Or.inl (by norm_num)),
   c2_should_ingest_threshold.2.2 envRecent49 false 0 none 49 rfl⟩

/-- C4 (corrected).  The claim says a caught Ingestor failure does not
abort the remaining steps of the same run.  The whole body of
`run_pipeline_job` sits in a single `try`, so when the scraper raises, the
outer `except` fires and the unclustered-articles check and the
clusterer/synthesizer branch of that run never execute. -/
theorem c4_counterexample :
    ¬ ((run_pipeline_job envScrapeFails false 0 none).checkedUnclustered = true
        ∧ (run_pipeline_job envScrapeFails false 0 none).clusteringCalled = true) := by
  decide

/-- C4 (amended).  If `shouldIngest` holds and the Ingestor raises, the
failure is caught at the `run_pipeline_job` boundary (the function returns
normally with the error logged) but it does abort the rest of that run:
the ungrouped-item check, the Grouper/Enricher branch and the final stats
read are all skipped, and the last-ingest timestamp is not updated. -/
theorem c4_scrape_failure_aborts_run :
    ∀ env (force : Bool) (now : ℚ) (last : Option ℚ) (recent : ℕ),
      env.get_articles_added_since 2 = .ok recent →
      should_scrape force recent = true →
      env.scrape_all_sources = .error .exn →
      run_pipeline_job env force now last
        = ⟨true, true, last, false, false, false, false, true⟩ := by
  intro env force now last recent h1 h2 h3
  unfold run_pipeline_job
  rw [h1]
  dsimp only
  rw [if_pos h2, h3]

/-- Witness for c4_scrape_failure_aborts_run at a concrete input. -/
theorem c4_scrape_failure_aborts_run_witness :
    run_pipeline_job envScrapeFails true 0 none
      = ⟨true, true, none, false, false, false, false, true⟩ :=
  c4_scrape_failure_aborts_run envScrapeFails true 0 none 0 rfl rfl rfl

/-- C10 (confirmed).  `run_pipeline_job` catches every exception internally,
so the `/api/refresh` response does not depend on the pipeline behaviour
at all: whenever the final stats read of the endpoint succeeds it answers
HTTP 200 with status `completed` and the current counts, even if the
pipeline run failed, and the error branch (HTTP 500 with a structured
error) is taken exactly when that stats read raises. -/
theorem c10_refresh_always_completed :
    (∀ (p p' : PipelineEnv) (sa : Except PyExn DbStats) (fp : Option String)
      (now now' : ℚ) (last last' : Option ℚ),
      api_refresh ⟨p, sa⟩ fp now last = api_refresh ⟨p', sa⟩ fp now' last') ∧
    (∀ (env : ApiEnv) (fp : Option String) (now : ℚ) (last : Option ℚ) (s : DbStats),
      env.get_stats_after = .ok s →
      api_refresh env fp now last
        = ⟨200, "completed", some s.total_articles, some s.total_stories⟩) ∧
    (∀ (env : ApiEnv) (fp : Option String) (now : ℚ) (last : Option ℚ),
      env.get_stats_after = .error .exn →
      api_refresh env fp now last = ⟨500, "error", none, none⟩) ∧
    (∀ (env : ApiEnv) (fp : Option String) (now : ℚ) (last : Option ℚ),
      (api_refresh env fp now last).status = "error"
        ↔ env.get_stats_after = .error .exn) := by
  refine ⟨?_, ?_, ?_, ?_⟩
  · intro p p' sa fp now now' last last'
    unfold api_refresh
    rcases sa with e | s <;> rfl
  · intro env fp now last s h
    unfold api_refresh
    rw [h]
  · intro env fp now last h
    unfold api_refresh
    rw [h]
  · intro env fp now last
    unfold api_refresh
    rcases h : env.get_stats_after with e | s
    · rcases e with _
      simp
    · simp

/-- Witness for c10_refresh_always_completed: the endpoint reports
`completed` with the current counts although every pipeline collaborator
raised. -/
theorem c10_refresh_always_completed_witness :
    api_refresh ⟨envAllFail, .ok ⟨7, 3⟩⟩ none 0 none
      = ⟨200, "completed", some 7, some 3⟩ :=
  c10_refresh_always_completed.2.1 ⟨envAllFail, .ok ⟨7, 3⟩⟩ none 0 none ⟨7, 3⟩ rfl

theorem init_scheduler_enabled_eq (started : List Sched) :
    init_scheduler "true" started = started ++ [freshSchedJobs] := rfl

theorem liveTimers_append_single (started : List Sched) (s : Sched) (id : String) :
    liveTimers (started ++ [s]) id
      = liveTimers started id + (s.jobs.filter fun j => j.id == id).length := by
  unfold liveTimers
  rw [List.map_append, List.sum_append]
  simp

/-- C5 (corrected).  The claim says that re-running the scheduler start leaves
exactly one live timer per job id.  `init_scheduler` always constructs a
fresh `BackgroundScheduler` and never shuts down the previously started
one (only two of the three `add_job` calls even pass
`replace_existing=True`, and replacement only acts within one instance),
so after a second start each id owns two live timers. -/
theorem c5_counterexample :
    ¬ (liveTimers (init_scheduler "true" (init_scheduler "true" [])) "full_pipeline" = 1) := by
  decide

/-- C5 (amended).  A single run of `init_scheduler` from a state with no
started scheduler registers exactly one live timer for each of the three
job ids; however, each further run starts a fresh scheduler instance while
the timers of the prior instance stay live, so every run adds one more live
timer per id instead of replacing the existing one. -/
theorem c5_one_timer_per_start :
    (liveTimers (init_scheduler "true" []) "initial_pipeline" = 1 ∧
     liveTimers (init_scheduler "true" []) "full_pipeline" = 1 ∧
     liveTimers (init_scheduler "true" []) "quick_pipeline" = 1) ∧
    (∀ started, liveTimers (init_scheduler "true" started) "initial_pipeline"
        = liveTimers started "initial_pipeline" + 1) ∧
    (∀ started, liveTimers (init_scheduler "true" started) "full_pipeline"
        = liveTimers started "full_pipeline" + 1) ∧
    (∀ started, liveTimers (init_scheduler "true" started) "quick_pipeline"
        = liveTimers started "quick_pipeline" + 1) := by
  refine ⟨by decide, ?_, ?_, ?_⟩ <;>
    intro started <;>
    rw [init_scheduler_enabled_eq, liveTimers_append_single] <;>
    rfl

/-- C3 (confirmed).  `classify_story` lower-cases the provider response,
strips every character that is not a lowercase ASCII letter, and returns
the result exactly when it belongs to the fixed eight-member category set,
falling back to `"other"` otherwise; it is a total function (never raises)
whose value always lies in the fixed set.  Scenarios: a response of
`"  Politics!! "` normalizes to `"politics"` and is accepted, while
`"entertainment"` is not a member and maps to `"other"`. -/
theorem c3_classifier_fixed_set :
    (∀ (raw : String → ℕ → Option String) (headline consensus : String),
      classify_story raw headline consensus ∈ VALID_CATEGORIES) ∧
    VALID_CATEGORIES.length = 8 ∧
    classify_story (fun _ _ => some "  Politics!! ") "Budget vote" "Lawmakers met." =
      "politics" ∧
    classify_story (fun _ _ => some "entertainment") "Awards night" "A ceremony." =
      "other" := by
  refine ⟨?_, by decide, by decide, by decide⟩
  intro raw headline consensus
  unfold classify_story
  dsimp only
  split
  · decide
  · split
    · decide
    · split
      · assumption
      · decide

theorem call_llm_loop_calls_le (raw : String → ℕ → Option String) (prompt : String) :
    ∀ (fuel attempt : ℕ), (call_llm_loop raw prompt attempt fuel).calls ≤ fuel := by
  intro fuel
  induction fuel with
  | zero => intro attempt; exact le_refl 0
  | succ n ih =>
    intro attempt
    rw [call_llm_loop]
    by_cases h : pyTruthy ((raw prompt attempt).map pyStrip)
    · simp only [h, if_true]
      omega
    · simp only [h, Bool.false_eq_true, if_false]
      have := ih (attempt + 1)
      omega

theorem call_llm_loop_all_fail (raw : String → ℕ → Option String) (prompt : String) :
    ∀ (fuel attempt : ℕ),
      (∀ i, attempt ≤ i → i < attempt + fuel →
        pyTruthy ((raw prompt i).map pyStrip) = false) →
      call_llm_loop raw prompt attempt fuel
        = ⟨none, fuel, List.replicate fuel LLM_RETRY_DELAY⟩ := by
  intro fuel
  induction fuel with
  | zero => intro attempt h; rfl
  | succ n ih =>
    intro attempt h
    have h0 : pyTruthy ((raw prompt attempt).map pyStrip) = false :=
      h attempt le_rfl (by omega)
    rw [call_llm_loop]
    simp only [h0, Bool.false_eq_true, if_false]
    rw [ih (attempt + 1) fun i hi hi2 => h i (by omega) (by omega)]
    rfl

theorem call_llm_loop_sleeps_delay (raw : String → ℕ → Option String) (prompt : String) :
    ∀ (fuel attempt : ℕ) (d : ℕ), d ∈ (call_llm_loop raw prompt attempt fuel).sleeps →
      d = LLM_RETRY_DELAY := by
  intro fuel
  induction fuel with
  | zero => intro attempt d h; exact absurd h (List.not_mem_nil d)
  | succ n ih =>
    intro attempt d h
    rw [call_llm_loop] at h
    by_cases h0 : pyTruthy ((raw prompt attempt).map pyStrip)
    · simp only [h0, if_true] at h
      exact absurd h (List.not_mem_nil d)
    · simp only [h0, Bool.false_eq_true, if_false] at h
      rcases List.mem_cons.mp h with h | h
      · exact h
      · exact ih (attempt + 1) d h

/-- C6 (confirmed).  On any provider failure (`None` from a raised
transport/status error or a missing key, or a response that strips to the
empty string), `call_llm` retries with a fixed `LLM_RETRY_DELAY = 2` second
sleep between attempts, making at most `LLM_MAX_RETRIES = 3` provider
calls; when all three attempts fail it returns `None` without raising and
`classify_story` maps the failure to `"other"`. -/
theorem c6_retry_policy :
    LLM_MAX_RETRIES = 3 ∧ LLM_RETRY_DELAY = 2 ∧
    (∀ (raw : String → ℕ → Option String) (prompt : String),
      (call_llm raw prompt).calls ≤ LLM_MAX_RETRIES) ∧
    (∀ (raw : String → ℕ → Option String) (prompt : String) (d : ℕ),
      d ∈ (call_llm raw prompt).sleeps → d = LLM_RETRY_DELAY) ∧
    (∀ (raw : String → ℕ → Option String) (prompt : String),
      (∀ i, i < LLM_MAX_RETRIES → pyTruthy ((raw prompt i).map pyStrip) = false) →
      call_llm raw prompt
        = ⟨none, LLM_MAX_RETRIES, List.replicate LLM_MAX_RETRIES LLM_RETRY_DELAY⟩) ∧
    (∀ (raw : String → ℕ → Option String) (headline consensus : String),
      (∀ p i, pyTruthy ((raw p i).map pyStrip) = false) →
      classify_story raw headline consensus = "other") := by
  refine ⟨rfl, rfl, ?_, ?_, ?_, ?_⟩
  · intro raw prompt
    rw [call_llm, if_pos (by decide)]
    exact call_llm_loop_calls_le raw prompt LLM_MAX_RETRIES 0
  · intro raw prompt d h
    rw [call_llm, if_pos (by decide)] at h
    exact call_llm_loop_sleeps_delay raw prompt LLM_MAX_RETRIES 0 d h
  · intro raw prompt h
    rw [call_llm, if_pos (by decide)]
    exact call_llm_loop_all_fail raw prompt LLM_MAX_RETRIES 0
      fun i _ hi => h i (by omega)
  · intro raw headline consensus h
    unfold classify_story
    dsimp only
    rw [call_llm, if_pos (by decide),
      call_llm_loop_all_fail raw _ LLM_MAX_RETRIES 0 fun i _ _ => h _ i]

/-- Witness for c6_retry_policy with a provider that always raises. -/
theorem c6_retry_policy_witness :
    call_llm (fun _ _ => none) "p" = ⟨none, LLM_MAX_RETRIES,
      List.replicate LLM_MAX_RETRIES LLM_RETRY_DELAY⟩ ∧
    classify_story (fun _ _ => none) "Budget vote" "Lawmakers met." = "other" :=
  ⟨c6_retry_policy.2.2.2.2.1 (fun _ _ => none) "p" fun _ _ => rfl,
   c6_retry_policy.2.2.2.2.2 (fun _ _ => none) "Budget vote" "Lawmakers met."
     fun _ _ => rfl⟩

theorem storyLe_trans : ∀ a b c : RankedStory, storyLe a b → storyLe b c → storyLe a c := by
  intro a b c h1 h2
  simp only [storyLe, decide_eq_true_eq] at *
  exact le_trans h2 h1

theorem storyLe_total : ∀ a b : RankedStory, storyLe a b || storyLe b a := by
  intro a b
  simp only [storyLe, Bool.or_eq_true, decide_eq_true_eq]
  exact le_total _ _

/-- C8 (confirmed).  `rank` returns a permutation of its input sorted by
descending `relevance_score`, and it is stable: any two records with equal
scores keep their relative input order (as a pair sublist), so repeated
calls on unchanged data and retrieval order produce the same sequence
(`rank` is a pure function of the input list). -/
theorem c8_rank_stable_descending :
    ∀ stories : List RankedStory,
      (rank stories).Perm stories ∧
      (rank stories).Pairwise (fun a b => b.relevance_score ≤ a.relevance_score) ∧
      (∀ a b : RankedStory, a.relevance_score = b.relevance_score →
        List.Sublist [a, b] stories → List.Sublist [a, b] (rank stories)) := by
  intro stories
  refine ⟨List.mergeSort_perm stories storyLe, ?_, ?_⟩
  · have h := List.sorted_mergeSort storyLe_trans storyLe_total stories
    exact h.imp fun hab => by
      simpa only [storyLe, decide_eq_true_eq] using hab
  · intro a b heq hsub
    refine List.pair_sublist_mergeSort storyLe_trans storyLe_total ?_ hsub
    simp only [storyLe, decide_eq_true_eq]
    exact le_of_eq heq.symm

/-- Witness for c8_rank_stable_descending on two equal-score records. -/
theorem c8_rank_stable_descending_witness :
    List.Sublist [(⟨0, 5⟩ : RankedStory), ⟨1, 5⟩] (rank [⟨0, 5⟩, ⟨1, 5⟩]) :=
  (c8_rank_stable_descending [⟨0, 5⟩, ⟨1, 5⟩]).2.2 ⟨0, 5⟩ ⟨1, 5⟩ rfl (List.Sublist.refl _)

end LucidNews
